import Mathlib

/-!
Shallow embedding of `apps/function-runtime/python/server.py`: the
load/invoke/reload lifecycle of the single-function Python runtime server.

JSON values are modelled by an inductive `Json` (numbers as integers, which
suffices for every property considered here).  The result of executing the
user's source file with the Python interpreter is abstracted by a function
`pyExec : String → ExecResult` supplied as a parameter: it either raises or
yields a module namespace mapping attribute names to values, each value being
callable (a handler) or not.  A handler is modelled extensionally as a
function from the event to the text it writes on stdout and stderr plus its
outcome (return value or raised exception message).  `json.loads` is likewise
abstracted: request handlers take the parse outcome `Except String Json`.
-/

namespace FunctionRuntime

/-- Default of the FUNCTION_CODE_PATH environment variable. -/
def FUNCTION_CODE_PATH : String := "/function/code.py"

/-- Default of the FUNCTION_HANDLER environment variable. -/
def FUNCTION_HANDLER : String := "handler"

/-- JSON values (Python objects produced by json.loads). -/
inductive Json where
  | null : Json
  | bool : Bool → Json
  | num : Int → Json
  | str : String → Json
  | arr : List Json → Json
  | obj : List (String × Json) → Json

/-- Python truthiness of a JSON value, as tested by an if statement. -/
def Json.truthy : Json → Bool
  | .null => false
  | .bool b => b
  | .num n => n != 0
  | .str s => s != ""
  | .arr xs => !xs.isEmpty
  | .obj fs => !fs.isEmpty

/-- Python type name of a JSON value, as it appears in error messages. -/
def Json.pyType : Json → String
  | .null => "NoneType"
  | .bool _ => "bool"
  | .num _ => "int"
  | .str _ => "str"
  | .arr _ => "list"
  | .obj _ => "dict"

/-- Field lookup in a JSON object (helper for stating properties). -/
def Json.field (j : Json) (k : String) : Option Json :=
  match j with
  | .obj fs => fs.lookup k
  | _ => none

/-- Python `x.get(key, dflt)`: on a dict, lookup with default; on any other
value, raises AttributeError (there is no `get` attribute). -/
def pyDictGetD (j : Json) (key : String) (dflt : Json) : Except String Json :=
  match j with
  | .obj fields => .ok ((fields.lookup key).getD dflt)
  | _ => .error ("'" ++ j.pyType ++ "' object has no attribute 'get'")

/-- Python `x.get(key)`: default is None. -/
def pyDictGet (j : Json) (key : String) : Except String Json :=
  pyDictGetD j key .null

/-- Characters removed by Python's `str.strip()`. -/
def isPySpace (c : Char) : Bool :=
  c == ' ' || c == '\t' || c == '\n' || c == '\r' || c == '\x0b' || c == '\x0c'

/-- Python `str.strip()`: drop leading and trailing whitespace. -/
def pyStrip (s : String) : String :=
  String.mk (((s.toList.dropWhile isPySpace).reverse.dropWhile isPySpace).reverse)

/-- Helper for `pySplitNl`: split a character list at every newline. -/
def pySplitNlAux : List Char → List (List Char)
  | [] => [[]]
  | c :: cs =>
      let rest := pySplitNlAux cs
      if c = '\n' then [] :: rest
      else
        match rest with
        | [] => [[c]]
        | r :: rs => (c :: r) :: rs

/-- Python `str.split(chr(10))`: split on every newline; the empty string
yields one empty piece. -/
def pySplitNl (s : String) : List String :=
  (pySplitNlAux s.toList).map String.mk

/-- Log-line extraction of server.py lines 174-181: each non-empty channel
buffer is stripped and split on newlines; stderr lines get an "[ERROR] "
marker; stdout lines come first. -/
def captureLogs (stdout_value stderr_value : String) : List String :=
  (if stdout_value != "" then pySplitNl (pyStrip stdout_value) else [])
    ++ (if stderr_value != "" then
          (pySplitNl (pyStrip stderr_value)).map (fun line => "[ERROR] " ++ line)
        else [])

/-- Outcome of calling the user's handler on one event: the text it wrote to
each diagnostic channel, and its return value or raised exception message. -/
structure HandlerOutcome where
  stdout : String
  stderr : String
  result : Except String Json

/-- A loaded handler, modelled extensionally. -/
def Handler : Type := Json → HandlerOutcome

/-- A module attribute: a callable handler, or a non-callable value
(tagged with its Python type name for error messages). -/
inductive Attr where
  | callable : Handler → Attr
  | notCallable : String → Attr

/-- Calling an attribute: a non-callable value raises TypeError. -/
def callAttr : Attr → Json → HandlerOutcome
  | .callable h, ev => h ev
  | .notCallable ty, _ => ⟨"", "", .error ("'" ++ ty ++ "' object is not callable")⟩

/-- Result of `spec.loader.exec_module` on the source text: either the module
body raised, or it produced a namespace of attributes. -/
inductive ExecResult where
  | raises : String → ExecResult
  | module : List (String × Attr) → ExecResult

/-- Process-wide mutable state: the globals `handler_func` and `load_error`,
plus the contents of the file at FUNCTION_CODE_PATH (none if absent). -/
structure RuntimeState where
  handler_func : Option Attr
  load_error : Option String
  fileContents : Option String

/-- server.py `load_function` (lines 32-69).  Returns the Boolean result and
the updated state.  Note the failure paths: a missing file, an exec error and
a missing handler attribute leave `handler_func` untouched; the not-callable
path has already assigned the new value to `handler_func` before the
`callable` check raises. -/
def load_function (pyExec : String → ExecResult) (st : RuntimeState) :
    Bool × RuntimeState :=
  match st.fileContents with
  | none =>
      let msg := "Function code not found at " ++ FUNCTION_CODE_PATH
      (false, { st with load_error := some msg })
  | some src =>
      match pyExec src with
      | .raises msg => (false, { st with load_error := some msg })
      | .module attrs =>
          match attrs.lookup FUNCTION_HANDLER with
          | none =>
              let msg := "Handler '" ++ FUNCTION_HANDLER ++ "' not found in module"
              (false, { st with load_error := some msg })
          | some (.callable h) =>
              (true, { st with handler_func := some (.callable h),
                               load_error := none })
          | some (.notCallable ty) =>
              let msg := "Handler '" ++ FUNCTION_HANDLER ++ "' is not callable"
              (false, { st with handler_func := some (.notCallable ty),
                                load_error := some msg })

/-- An HTTP response: status code and JSON body. -/
structure HttpResponse where
  statusCode : Nat
  body : Json

/-- Abstraction of `traceback.format_exc()` for an exception message. -/
def stackOf (msg : String) : String :=
  "Traceback (most recent call last):\n" ++ msg

/-- The 500 envelope sent from the outer `except` of the /invoke branch
(lines 199-207). -/
def errorEnvelope (duration_ms : Int) (msg : String) (logs : List String) :
    HttpResponse :=
  ⟨500, .obj [("status", .str "error"), ("duration_ms", .num duration_ms),
              ("error", .str msg), ("stack", .str (stackOf msg)),
              ("logs", .arr (logs.map Json.str))]⟩

/-- The 200 envelope sent on handler success (lines 191-196). -/
def successEnvelope (duration_ms : Int) (result : Json) (logs : List String) :
    HttpResponse :=
  ⟨200, .obj [("status", .str "success"), ("duration_ms", .num duration_ms),
              ("response", result), ("logs", .arr (logs.map Json.str))]⟩

/-- The envelope produced for one handler-call outcome: success envelope with
the captured logs, or error envelope with empty logs (the extraction on lines
174-181 is skipped when the call raises). -/
def handlerEnvelope (duration_ms : Int) (o : HandlerOutcome) : HttpResponse :=
  match o.result with
  | .error msg => errorEnvelope duration_ms msg []
  | .ok result => successEnvelope duration_ms result (captureLogs o.stdout o.stderr)

/-- One of the two process diagnostic channels: the original stream, or a
StringIO buffer holding what was written to it. -/
inductive Chan where
  | original : String → Chan
  | buffer : String → Chan
deriving DecidableEq

/-- sys.stdout / sys.stderr. -/
structure Channels where
  stdout : Chan
  stderr : Chan
deriving DecidableEq

/-- StringIO.getvalue (the original stream is never read back). -/
def Chan.getvalue : Chan → String
  | .original _ => ""
  | .buffer s => s

/-- Python `load_error or 'Function not loaded'` (line 146): the recorded
load error if truthy, else the fallback string. -/
def notLoadedMessage : Option String → String
  | some e => if e != "" then e else "Function not loaded"
  | none => "Function not loaded"

/-- The /invoke branch once `handler_func` is known to be loaded
(lines 150-210): parse the body, select the event, redirect the channels,
call the handler, extract logs on success, restore the channels in `finally`
on every path, and build the envelope.  `parse` is the outcome of
`json.loads(body)`; `elapsed_ms` abstracts the measured wall time. -/
def invokeLoaded (ch : Channels) (attr : Attr) (parse : Except String Json)
    (elapsed_ms : Int) : HttpResponse × Channels :=
  match parse with
  | .error msg => (errorEnvelope elapsed_ms msg [], ch)
  | .ok parsed =>
      match pyDictGetD parsed "event" parsed with
      | .error msg => (errorEnvelope elapsed_ms msg [], ch)
      | .ok event =>
          let old_stdout := ch.stdout
          let old_stderr := ch.stderr
          let o := callAttr attr event
          let during : Channels := ⟨.buffer o.stdout, .buffer o.stderr⟩
          let restored : Channels := ⟨old_stdout, old_stderr⟩
          match o.result with
          | .error msg => (errorEnvelope elapsed_ms msg [], restored)
          | .ok result =>
              let stdout_value := during.stdout.getvalue
              let stderr_value := during.stderr.getvalue
              let logs := captureLogs stdout_value stderr_value
              (successEnvelope elapsed_ms result logs, restored)

/-- do_POST on /invoke (lines 141-210): reject with a bare 500 when no
handler is loaded, else run the loaded-invocation path. -/
def invokePost (ch : Channels) (st : RuntimeState) (parse : Except String Json)
    (elapsed_ms : Int) : HttpResponse × Channels :=
  match st.handler_func with
  | none =>
      (⟨500, .obj [("status", .str "error"),
                   ("error", .str (notLoadedMessage st.load_error))]⟩, ch)
  | some attr => invokeLoaded ch attr parse elapsed_ms

/-- JSON encoding of an optional string (Python None becomes null). -/
def optionStrJson : Option String → Json
  | none => .null
  | some s => .str s

/-- do_POST on /write-code (lines 107-132): 400 when the `code` field is
falsy; otherwise write the file (opening with mode w truncates, and a
non-string raises after truncation) and reload. -/
def writeCodePost (pyExec : String → ExecResult) (st : RuntimeState)
    (parse : Except String Json) : HttpResponse × RuntimeState :=
  match parse with
  | .error msg => (⟨500, .obj [("error", .str msg)]⟩, st)
  | .ok data =>
      match pyDictGet data "code" with
      | .error msg => (⟨500, .obj [("error", .str msg)]⟩, st)
      | .ok code =>
          if !code.truthy then
            (⟨400, .obj [("error", .str "Missing code field")]⟩, st)
          else
            match code with
            | .str s =>
                let r := load_function pyExec { st with fileContents := some s }
                (⟨if r.1 then 200 else 500,
                  .obj [("success", .bool r.1),
                        ("error", optionStrJson r.2.load_error)]⟩, r.2)
            | other =>
                (⟨500, .obj [("error", .str
                  ("write() argument must be str, not " ++ other.pyType))]⟩,
                 { st with fileContents := some "" })

/-- do_POST on /reload (lines 134-139). -/
def reloadPost (pyExec : String → ExecResult) (st : RuntimeState) :
    HttpResponse × RuntimeState :=
  let r := load_function pyExec st
  (⟨if r.1 then 200 else 500,
    .obj [("success", .bool r.1),
          ("error", optionStrJson r.2.load_error)]⟩, r.2)

/-- do_GET on /health (lines 87-94). -/
def healthGet (st : RuntimeState) : HttpResponse :=
  ⟨200, .obj [("status", .str "healthy"), ("handler", .str FUNCTION_HANDLER),
              ("codeLoaded", .bool st.handler_func.isSome),
              ("error", optionStrJson st.load_error)]⟩

/-- Substring test (used to state that a message mentions some text). -/
def strContains (s pat : String) : Bool :=
  (List.range (s.length + 1)).any (fun i => pat.toList.isPrefixOf (s.toList.drop i))

/-- Spec-worded log splitting, for comparison with `captureLogs`: split on
line breaks with only the trailing blank line dropped, interior and leading
content preserved as written. -/
def specSplitTrailing (s : String) : List String :=
  let ls := pySplitNl s
  if ls.getLast? == some "" then ls.dropLast else ls

/-! Concrete fixtures used by the theorems below. -/

/-- An exec outcome never consulted by the scenarios that use it. -/
def pyExec0 : String → ExecResult := fun _ => .raises "unused"

/-- The process's original stdout and stderr. -/
def origCh : Channels := ⟨.original "stdout", .original "stderr"⟩

/-- A handler that silently returns 1. -/
def h0 : Handler := fun _ => ⟨"", "", .ok (Json.num 1)⟩

/-- State after a successful load of `h0`, with the source file now absent. -/
def st1 : RuntimeState := ⟨some (.callable h0), none, none⟩

/-- A handler that prints "hello" and then raises Exception("boom"). -/
def h2 : Handler := fun _ => ⟨"hello\n", "", .error "boom"⟩

/-- State after a successful load of `h2`. -/
def st2 : RuntimeState := ⟨some (.callable h2), none, some "print-then-raise source"⟩

/-- A handler that returns the string CALLED, so that an invocation of it is
observable in the response. -/
def h3 : Handler := fun _ => ⟨"", "", .ok (Json.str "CALLED")⟩

/-- State after a successful load of `h3`. -/
def st3 : RuntimeState := ⟨some (.callable h3), none, some "return-CALLED source"⟩

/-- State after a startup load failed because the source file is absent:
no handler, and `load_error` records the not-found message. -/
def st5 : RuntimeState :=
  ⟨none, some "Function code not found at /function/code.py", none⟩

/-- A handler that writes a leading blank line, "hello" and a final newline
to stdout, then returns None. -/
def h6 : Handler := fun _ => ⟨"\nhello\n", "", .ok Json.null⟩

/-- State after a successful load of `h6`. -/
def st6 : RuntimeState := ⟨some (.callable h6), none, some "leading-blank source"⟩

/-- C7: on every exit path of the /invoke branch — handler not loaded, body
parse failure, event-selection failure, handler fault, or normal return —
sys.stdout and sys.stderr after the request equal their values before it
(the try/finally on lines 164-186 restores them). -/
theorem C7_channels_restored (ch : Channels) (st : RuntimeState)
    (parse : Except String Json) (d : Int) :
    (invokePost ch st parse d).2 = ch := by
  unfold invokePost invokeLoaded
  cases hf : st.handler_func with
  | none => rfl
  | some attr =>
    cases parse with
    | error msg => rfl
    | ok parsed =>
      cases hg : pyDictGetD parsed "event" parsed with
      | error msg => simp only [hg]
      | ok event =>
        cases hr : (callAttr attr event).result with
        | error m => simp only [hg, hr]
        | ok r => simp only [hg, hr]

/-- C8: a /write-code request whose JSON-object body lacks the `code` field
gets a 400 response with error "Missing code field", and the runtime state —
handler slot, recorded load error, and file contents — is returned unchanged. -/
theorem C8_missing_code (pyExec : String → ExecResult) (st : RuntimeState)
    (fields : List (String × Json))
    (hmiss : fields.lookup "code" = none) :
    writeCodePost pyExec st (.ok (Json.obj fields)) =
      (⟨400, Json.obj [("error", Json.str "Missing code field")]⟩, st) := by
  unfold writeCodePost pyDictGet pyDictGetD
  simp [hmiss, Json.truthy]

/-- Witness for C8 at a concrete input: an empty body object and a state
holding a loaded handler. -/
theorem C8_missing_code_witness :
    List.lookup "code" ([] : List (String × Json)) = none ∧
    writeCodePost pyExec0 st3 (.ok (Json.obj [])) =
      (⟨400, Json.obj [("error", Json.str "Missing code field")]⟩, st3) :=
  ⟨rfl, C8_missing_code pyExec0 st3 [] rfl⟩

/-- Core of C9: every failure path of `load_function` records an error
string before returning false, and the success path clears the error before
returning true. -/
theorem load_function_ok_iff (pyExec : String → ExecResult) (st : RuntimeState) :
    (load_function pyExec st).1 = true ↔
      (load_function pyExec st).2.load_error = none := by
  unfold load_function
  rcases hf : st.fileContents with _ | src
  · simp
  · rcases hx : pyExec src with msg | attrs
    · simp [hx]
    · rcases hl : attrs.lookup FUNCTION_HANDLER with _ | a
      · simp [hx, hl]
      · rcases a with h | ty <;> simp [hx, hl]

/-- The success/error fields of a reload envelope built from one
`load_function` call agree: success is the boolean true exactly when the
error is null. -/
theorem envelope_success_iff (pyExec : String → ExecResult) (st : RuntimeState) :
    some (Json.bool (load_function pyExec st).1) = some (Json.bool true) ↔
      some (optionStrJson (load_function pyExec st).2.load_error) = some Json.null := by
  rcases hle : (load_function pyExec st).2.load_error with _ | e
  · simp [optionStrJson, load_function_ok_iff pyExec st, hle]
  · simp [optionStrJson, load_function_ok_iff pyExec st, hle]

/-- C9: `load_function` returns true exactly when the recorded `load_error`
is None afterwards (so a successful load clears any earlier error); the
/reload response reports success:true exactly when its error field is null;
and every /write-code response that reaches the reload step (a truthy string
`code` field) satisfies the same equivalence. -/
theorem C9_success_iff_no_error (pyExec : String → ExecResult) (st : RuntimeState) :
    ((load_function pyExec st).1 = true ↔
      (load_function pyExec st).2.load_error = none) ∧
    ((reloadPost pyExec st).1.body.field "success" = some (Json.bool true) ↔
      (reloadPost pyExec st).1.body.field "error" = some Json.null) ∧
    ∀ (fields : List (String × Json)) (s : String),
      fields.lookup "code" = some (Json.str s) → s ≠ "" →
      ((writeCodePost pyExec st (.ok (Json.obj fields))).1.body.field "success" =
          some (Json.bool true) ↔
        (writeCodePost pyExec st (.ok (Json.obj fields))).1.body.field "error" =
          some Json.null) := by
  refine ⟨load_function_ok_iff pyExec st, ?_, ?_⟩
  · unfold reloadPost
    show some (Json.bool (load_function pyExec st).1) = some (Json.bool true) ↔
      some (optionStrJson (load_function pyExec st).2.load_error) = some Json.null
    exact envelope_success_iff pyExec st
  · intro fields s hc hs
    have hred : writeCodePost pyExec st (.ok (Json.obj fields)) =
        (⟨if (load_function pyExec { st with fileContents := some s }).1 then 200
          else 500,
          Json.obj [("success",
              Json.bool (load_function pyExec { st with fileContents := some s }).1),
            ("error",
              optionStrJson
                (load_function pyExec
                  { st with fileContents := some s }).2.load_error)]⟩,
         (load_function pyExec { st with fileContents := some s }).2) := by
      unfold writeCodePost pyDictGet pyDictGetD
      simp [hc, Json.truthy, hs]
    rw [hred]
    exact envelope_success_iff pyExec { st with fileContents := some s }

/-- Witness for C9 at a concrete /write-code reload: body code:"x" on a
loaded state, with an exec that fails, giving success:false and a non-null
error. -/
theorem C9_success_iff_no_error_witness :
    List.lookup "code" [("code", Json.str "x")] = some (Json.str "x") ∧
    ("x" : String) ≠ "" ∧
    ((writeCodePost pyExec0 st3 (.ok (Json.obj [("code", Json.str "x")]))).1.body.field
        "success" = some (Json.bool true) ↔
      (writeCodePost pyExec0 st3 (.ok (Json.obj [("code", Json.str "x")]))).1.body.field
        "error" = some Json.null) :=
  ⟨rfl, by decide,
    (C9_success_iff_no_error pyExec0 st3).2.2 [("code", Json.str "x")] "x" rfl
      (by decide)⟩

/-- C10: a /write-code request whose body's `code` field holds a falsy value
(the empty string, null, false, or 0) is handled exactly like a missing
field: 400 with "Missing code field", no file write, no reload, state
unchanged. -/
theorem C10_falsy_code (pyExec : String → ExecResult) (st : RuntimeState)
    (fields : List (String × Json)) (c : Json)
    (hc : fields.lookup "code" = some c)
    (hfalsy : c = Json.str "" ∨ c = Json.null ∨ c = Json.bool false ∨
      c = Json.num 0) :
    writeCodePost pyExec st (.ok (Json.obj fields)) =
      (⟨400, Json.obj [("error", Json.str "Missing code field")]⟩, st) := by
  unfold writeCodePost pyDictGet pyDictGetD
  rcases hfalsy with h | h | h | h <;> subst h <;> simp [hc, Json.truthy]

/-- Witness for C10 at a concrete input: body with code:null and a state
holding a loaded handler. -/
theorem C10_falsy_code_witness :
    List.lookup "code" [("code", Json.null)] = some Json.null ∧
    (Json.null = Json.str "" ∨ Json.null = Json.null ∨
      Json.null = Json.bool false ∨ Json.null = Json.num 0) ∧
    writeCodePost pyExec0 st3 (.ok (Json.obj [("code", Json.null)])) =
      (⟨400, Json.obj [("error", Json.str "Missing code field")]⟩, st3) :=
  ⟨rfl, Or.inr (Or.inl rfl),
    C10_falsy_code pyExec0 st3 [("code", Json.null)] Json.null rfl
      (Or.inr (Or.inl rfl))⟩

/-- C1 counterexample: with handler `h0` loaded and the source file absent,
`load_function` returns false, yet the handler slot still holds `h0` (it is
not set to absent), and a subsequent invoke runs the old handler and returns
its value 1 instead of being rejected as not loaded. -/
theorem C1_counterexample :
    (load_function pyExec0 st1).1 = false ∧
    (load_function pyExec0 st1).2.handler_func = some (Attr.callable h0) ∧
    some (Attr.callable h0) ≠ (none : Option Attr) ∧
    (invokePost origCh (load_function pyExec0 st1).2 (.ok (Json.obj [])) 0).1 =
      successEnvelope 0 (Json.num 1) [] := by
  refine ⟨rfl, rfl, ?_, rfl⟩
  intro hcontra
  exact Option.noConfusion hcontra

/-- C1 (amended): after a failed load the handler slot is not cleared: it
still holds whatever it held before the failure, except that the
not-callable failure leaves the freshly resolved non-callable attribute in
the slot (the assignment on line 57 precedes the `callable` check). -/
theorem C1_amended (pyExec : String → ExecResult) (st : RuntimeState)
    (hfail : (load_function pyExec st).1 = false) :
    (load_function pyExec st).2.handler_func = st.handler_func ∨
    ∃ ty, (load_function pyExec st).2.handler_func = some (Attr.notCallable ty) := by
  unfold load_function at hfail ⊢
  rcases hf : st.fileContents with _ | src
  · simp
  · rcases hx : pyExec src with msg | attrs
    · simp [hx]
    · rcases hl : attrs.lookup FUNCTION_HANDLER with _ | a
      · simp [hx, hl]
      · rcases a with h | ty
        · rw [hf] at hfail
          simp [hx, hl] at hfail
        · right
          exact ⟨ty, by simp [hx, hl]⟩

/-- Witness for the amended C1 at a concrete failing load (source absent). -/
theorem C1_amended_witness :
    (load_function pyExec0 st1).1 = false ∧
    ((load_function pyExec0 st1).2.handler_func = st1.handler_func ∨
      ∃ ty, (load_function pyExec0 st1).2.handler_func = some (Attr.notCallable ty)) :=
  ⟨rfl, C1_amended pyExec0 st1 rfl⟩

/-- C2, evaluated at the failing input: handler `h2` writes "hello" to
stdout and then raises "boom".  The captured buffer would split to
["hello"], but the error envelope carries logs = [] — the extraction on
lines 173-181 only runs after a successful call, so the claimed attachment
of pre-fault logs does not happen. -/
theorem C2_fault_drops_logs :
    (callAttr (Attr.callable h2) (Json.obj [])).stdout = "hello\n" ∧
    captureLogs "hello\n" "" = ["hello"] ∧
    (invokePost origCh st2 (.ok (Json.obj [])) 3).1 = errorEnvelope 3 "boom" [] ∧
    (invokePost origCh st2 (.ok (Json.obj [])) 3).1.body.field "logs" =
      some (Json.arr []) :=
  ⟨rfl, by decide, rfl, rfl⟩

/-- Reduction of /invoke to the loaded path when a handler is installed. -/
theorem invokePost_loaded (ch : Channels) (st : RuntimeState) (attr : Attr)
    (parse : Except String Json) (d : Int)
    (hload : st.handler_func = some attr) :
    invokePost ch st parse d = invokeLoaded ch attr parse d := by
  unfold invokePost
  rw [hload]

/-- C3 counterexample: a bare JSON-array body is valid JSON, but the handler
is not invoked with it — `parsed.get` raises AttributeError on a list, and
the response is the 500 fault envelope (no `response` field), even though
the loaded handler `h3` would have returned "CALLED". -/
theorem C3_counterexample :
    (invokePost origCh st3 (.ok (Json.arr [Json.num 1])) 7).1 =
      errorEnvelope 7 "'list' object has no attribute 'get'" [] ∧
    (invokePost origCh st3 (.ok (Json.arr [Json.num 1])) 7).1.body.field "status" =
      some (Json.str "error") ∧
    (invokePost origCh st3 (.ok (Json.arr [Json.num 1])) 7).1.body.field "response" =
      none :=
  ⟨rfl, rfl, rfl⟩

/-- C3 (amended): for a JSON-object body the handler is invoked with the
`event` field if present, else the whole object; for a bare non-object body
the invocation fails with an AttributeError fault envelope and the handler
is never executed (the response does not depend on the loaded handler). -/
theorem C3_amended (ch : Channels) (st : RuntimeState) (h : Handler)
    (d : Int) (parsed : Json)
    (hload : st.handler_func = some (Attr.callable h)) :
    (∀ fields, parsed = Json.obj fields →
      (invokePost ch st (.ok parsed) d).1 =
        handlerEnvelope d (h ((fields.lookup "event").getD parsed))) ∧
    ((∀ fields, parsed ≠ Json.obj fields) →
      ((invokePost ch st (.ok parsed) d).1 =
          errorEnvelope d ("'" ++ parsed.pyType ++ "' object has no attribute 'get'")
            [] ∧
        ∀ g : Handler,
          (invokePost ch { st with handler_func := some (Attr.callable g) }
              (.ok parsed) d).1 =
            (invokePost ch st (.ok parsed) d).1)) := by
  rw [invokePost_loaded ch st (Attr.callable h) (.ok parsed) d hload]
  constructor
  · rintro fields rfl
    cases hr : (h ((fields.lookup "event").getD (Json.obj fields))).result with
    | error m =>
        simp [invokeLoaded, pyDictGetD, callAttr, handlerEnvelope, hr]
    | ok r =>
        simp [invokeLoaded, pyDictGetD, callAttr, handlerEnvelope, hr, Chan.getvalue]
  · intro hne
    have hred : ∀ g : Handler,
        invokePost ch { st with handler_func := some (Attr.callable g) }
            (.ok parsed) d =
          invokeLoaded ch (Attr.callable g) (.ok parsed) d :=
      fun g => invokePost_loaded ch _ (Attr.callable g) (.ok parsed) d rfl
    rcases hp : parsed with _ | b | n | s | xs | fs
    · subst hp
      exact ⟨rfl, fun g => by rw [hred g]; rfl⟩
    · subst hp
      exact ⟨rfl, fun g => by rw [hred g]; rfl⟩
    · subst hp
      exact ⟨rfl, fun g => by rw [hred g]; rfl⟩
    · subst hp
      exact ⟨rfl, fun g => by rw [hred g]; rfl⟩
    · subst hp
      exact ⟨rfl, fun g => by rw [hred g]; rfl⟩
    · exact absurd hp (hne fs)

/-- Witness for the amended C3 at a concrete bare-array body. -/
theorem C3_amended_witness :
    st3.handler_func = some (Attr.callable h3) ∧
    ((∀ fields, Json.arr [Json.num 1] = Json.obj fields →
        (invokePost origCh st3 (.ok (Json.arr [Json.num 1])) 7).1 =
          handlerEnvelope 7
            (h3 ((fields.lookup "event").getD (Json.arr [Json.num 1])))) ∧
      ((∀ fields, Json.arr [Json.num 1] ≠ Json.obj fields) →
        ((invokePost origCh st3 (.ok (Json.arr [Json.num 1])) 7).1 =
            errorEnvelope 7
              ("'" ++ (Json.arr [Json.num 1]).pyType ++
                "' object has no attribute 'get'") [] ∧
          ∀ g : Handler,
            (invokePost origCh { st3 with handler_func := some (Attr.callable g) }
                (.ok (Json.arr [Json.num 1])) 7).1 =
              (invokePost origCh st3 (.ok (Json.arr [Json.num 1])) 7).1))) :=
  ⟨rfl, C3_amended origCh st3 h3 7 (Json.arr [Json.num 1]) rfl⟩

/-- C4 counterexample: a body that is not valid JSON produces exactly the
invocation-fault envelope — 500 with status "error", a measured
duration_ms, and a stack field — not a distinct transport-level error. -/
theorem C4_counterexample :
    (invokePost origCh st3 (.error "Expecting value: line 1 column 1 (char 0)") 4).1 =
      errorEnvelope 4 "Expecting value: line 1 column 1 (char 0)" [] ∧
    (invokePost origCh st3
        (.error "Expecting value: line 1 column 1 (char 0)") 4).1.body.field "status" =
      some (Json.str "error") ∧
    (invokePost origCh st3
        (.error "Expecting value: line 1 column 1 (char 0)") 4).1.body.field
        "duration_ms" = some (Json.num 4) ∧
    (invokePost origCh st3
        (.error "Expecting value: line 1 column 1 (char 0)") 4).1.body.field "stack" =
      some (Json.str (stackOf "Expecting value: line 1 column 1 (char 0)")) :=
  ⟨rfl, rfl, rfl, rfl⟩

/-- C4 (amended): an invalid-JSON body yields the same 500 fault envelope as
a handler fault (status "error", duration_ms, error, stack, empty logs); the
handler itself is not executed — the response is independent of which
handler is loaded. -/
theorem C4_amended (ch : Channels) (st : RuntimeState) (h : Handler)
    (msg : String) (d : Int)
    (hload : st.handler_func = some (Attr.callable h)) :
    (invokePost ch st (.error msg) d).1 = errorEnvelope d msg [] ∧
    (invokePost ch st (.error msg) d).1.body.field "status" =
      some (Json.str "error") ∧
    (invokePost ch st (.error msg) d).1.body.field "duration_ms" =
      some (Json.num d) ∧
    (invokePost ch st (.error msg) d).1.body.field "stack" =
      some (Json.str (stackOf msg)) ∧
    ∀ g : Handler,
      (invokePost ch { st with handler_func := some (Attr.callable g) }
          (.error msg) d).1 =
        (invokePost ch st (.error msg) d).1 := by
  rw [invokePost_loaded ch st (Attr.callable h) (.error msg) d hload]
  refine ⟨rfl, rfl, rfl, rfl, fun g => ?_⟩
  rw [invokePost_loaded ch _ (Attr.callable g) (.error msg) d rfl]
  rfl

/-- Witness for the amended C4 at a concrete parse failure. -/
theorem C4_amended_witness :
    st3.handler_func = some (Attr.callable h3) ∧
    ((invokePost origCh st3 (.error "bad json") 6).1 =
        errorEnvelope 6 "bad json" [] ∧
      (invokePost origCh st3 (.error "bad json") 6).1.body.field "status" =
        some (Json.str "error") ∧
      (invokePost origCh st3 (.error "bad json") 6).1.body.field "duration_ms" =
        some (Json.num 6) ∧
      (invokePost origCh st3 (.error "bad json") 6).1.body.field "stack" =
        some (Json.str (stackOf "bad json")) ∧
      ∀ g : Handler,
        (invokePost origCh { st3 with handler_func := some (Attr.callable g) }
            (.error "bad json") 6).1 =
          (invokePost origCh st3 (.error "bad json") 6).1) :=
  ⟨rfl, C4_amended origCh st3 h3 "bad json" 6 rfl⟩

/-- C5 counterexample: invoking while not loaded, with the startup failure
"Function code not found at /function/code.py" recorded, returns that
message — which does not mention "not loaded". -/
theorem C5_counterexample :
    (invokePost origCh st5 (.ok (Json.obj [])) 9).1 =
      ⟨500, Json.obj [("status", Json.str "error"),
        ("error", Json.str "Function code not found at /function/code.py")]⟩ ∧
    strContains "Function code not found at /function/code.py" "not loaded" = false :=
  ⟨rfl, by decide⟩

/-- C5 (amended): with no handler loaded, /invoke immediately returns a 500
status-"error" body with no duration_ms field and leaves the channels
untouched; the message is the recorded load error when one is set
(truthy), and the fallback "Function not loaded" — which does mention
"not loaded" — only when none is recorded. -/
theorem C5_amended (ch : Channels) (st : RuntimeState) (parse : Except String Json)
    (d : Int) (hnone : st.handler_func = none) :
    (invokePost ch st parse d).1 =
      ⟨500, Json.obj [("status", Json.str "error"),
                      ("error", Json.str (notLoadedMessage st.load_error))]⟩ ∧
    (invokePost ch st parse d).1.body.field "duration_ms" = none ∧
    (invokePost ch st parse d).2 = ch ∧
    (st.load_error = none →
      strContains (notLoadedMessage st.load_error) "not loaded" = true) := by
  have hred : invokePost ch st parse d =
      (⟨500, Json.obj [("status", Json.str "error"),
                       ("error", Json.str (notLoadedMessage st.load_error))]⟩, ch) := by
    unfold invokePost
    rw [hnone]
  refine ⟨by rw [hred], by rw [hred]; rfl, by rw [hred], fun hle => ?_⟩
  rw [hle]
  decide

/-- Witness for the amended C5 at the concrete not-loaded state `st5`. -/
theorem C5_amended_witness :
    st5.handler_func = none ∧
    ((invokePost origCh st5 (.ok (Json.obj [])) 9).1 =
        ⟨500, Json.obj [("status", Json.str "error"),
                        ("error", Json.str (notLoadedMessage st5.load_error))]⟩ ∧
      (invokePost origCh st5 (.ok (Json.obj [])) 9).1.body.field "duration_ms" =
        none ∧
      (invokePost origCh st5 (.ok (Json.obj [])) 9).2 = origCh ∧
      (st5.load_error = none →
        strContains (notLoadedMessage st5.load_error) "not loaded" = true)) :=
  ⟨rfl, C5_amended origCh st5 (.ok (Json.obj [])) 9 rfl⟩

/-- C6 counterexample: a stdout buffer holding a leading blank line
(contents chr(10) hello chr(10)) would split to ["", "hello"] under the
claimed only-the-trailing-blank-dropped rule, but the code strips leading
whitespace too and the invocation's log sequence is ["hello"]. -/
theorem C6_counterexample :
    specSplitTrailing "\nhello\n" = ["", "hello"] ∧
    captureLogs "\nhello\n" "" = ["hello"] ∧
    (invokePost origCh st6 (.ok (Json.obj [])) 2).1.body.field "logs" =
      some (Json.arr [Json.str "hello"]) ∧
    (["hello"] : List String) ≠ ["", "hello"] :=
  ⟨by decide, by decide, rfl, by decide⟩

/-- C6 (amended): the logs attached to a successful invocation are obtained
by stripping each non-empty channel buffer of leading AND trailing
whitespace, splitting on newlines, prefixing every stderr line with
"[ERROR] ", and listing all stdout lines before all stderr lines. -/
theorem C6_amended (ch : Channels) (st : RuntimeState) (h : Handler) (d : Int)
    (outv errv : String) (v : Json)
    (hload : st.handler_func = some (Attr.callable h))
    (hbeh : h (Json.obj []) = ⟨outv, errv, Except.ok v⟩) :
    (invokePost ch st (.ok (Json.obj [])) d).1.body.field "logs" =
      some (Json.arr
        (((if outv != "" then pySplitNl (pyStrip outv) else []) ++
          (if errv != "" then
            (pySplitNl (pyStrip errv)).map (fun line => "[ERROR] " ++ line)
          else [])).map Json.str)) := by
  rw [invokePost_loaded ch st (Attr.callable h) (.ok (Json.obj [])) d hload]
  simp only [invokeLoaded, pyDictGetD, callAttr, List.lookup, Option.getD, hbeh,
    captureLogs, successEnvelope, Json.field, Chan.getvalue]
  rfl

/-- Witness for the amended C6 at the concrete handler `h6`. -/
theorem C6_amended_witness :
    st6.handler_func = some (Attr.callable h6) ∧
    h6 (Json.obj []) = ⟨"\nhello\n", "", Except.ok Json.null⟩ ∧
    (invokePost origCh st6 (.ok (Json.obj [])) 2).1.body.field "logs" =
      some (Json.arr
        (((if ("\nhello\n" : String) != "" then pySplitNl (pyStrip "\nhello\n")
           else []) ++
          (if ("" : String) != "" then
            (pySplitNl (pyStrip "")).map (fun line => "[ERROR] " ++ line)
          else [])).map Json.str)) :=
  ⟨rfl, rfl, C6_amended origCh st6 h6 2 "\nhello\n" "" Json.null rfl rfl⟩

end FunctionRuntime
